import Mathlib

/-!
# Verification of the mecanum simulator robot core

Shallow embedding of the kinematic and sensor-geometry core of
src/scripts/robot.py.  Floating-point arithmetic of the source is modelled
by exact real arithmetic over ℝ.  Python partiality (division by zero,
square root of a negative number) is modelled by companion functions
returning Option, written next to the total real-valued translations.
-/

namespace MecanumSim

open Real Matrix

noncomputable section

/-- vecTail of a constant vector (simp helper for matrix-entry evaluation). -/
lemma vecTail_const {α : Type*} (a : α) (n : ℕ) :
    vecTail (fun _ : Fin (n + 1) => a) = fun _ : Fin n => a :=
  rfl

/-! ## Drive kinematics (robot.py, class constants and __init__ lines 105-113)

Class constants: _wheel_radius = 0.05, _wheel_base = 0.3, _track = 0.2.
The forward matrix _T maps body velocity (vx, vy, omega) to the four wheel
angular rates in the order front-left, front-right, rear-left, rear-right
(the order of callback_wheel_speed).  _Tinv = np.linalg.pinv(_T); we embed
it as the exact Moore-Penrose pseudo-inverse, which is justified by
proving the four Penrose equations for the explicit matrix. -/

def wheel_radius : ℝ := 0.05

def wheel_base : ℝ := 0.3

def track : ℝ := 0.2

/-- lxly = (self._wheel_base/2 + self._track/2) / self._wheel_radius -/
def lxly : ℝ := (wheel_base / 2 + track / 2) / wheel_radius

/-- rinv = 1/self._wheel_radius -/
def rinv : ℝ := 1 / wheel_radius

/-- self._T, rows: front-left, front-right, rear-left, rear-right. -/
def T_drive : Matrix (Fin 4) (Fin 3) ℝ :=
  !![rinv, -rinv, -lxly;
     -rinv, -rinv, -lxly;
     rinv, rinv, -lxly;
     -rinv, rinv, -lxly]

/-- self._Tinv = np.linalg.pinv(self._T): the exact Moore-Penrose
pseudo-inverse of `T_drive` (verified by the Penrose equations in the
round-trip theorem below). -/
def Tinv_drive : Matrix (Fin 3) (Fin 4) ℝ :=
  !![1/80, -(1/80), 1/80, -(1/80);
     -(1/80), -(1/80), 1/80, 1/80;
     -(1/20), -(1/20), -(1/20), -(1/20)]

lemma rinv_eq : rinv = 20 := by norm_num [rinv, wheel_radius]

lemma lxly_eq : lxly = 5 := by norm_num [lxly, wheel_radius, wheel_base, track]

lemma Tinv_mul_T : Tinv_drive * T_drive = 1 := by
  ext i j
  fin_cases i <;> fin_cases j <;>
    simp [Matrix.mul_apply, Fin.sum_univ_four, T_drive, Tinv_drive,
      rinv_eq, lxly_eq, vecTail_const, Matrix.one_apply, Fin.ext_iff] <;>
    norm_num

set_option maxHeartbeats 1600000 in
lemma T_mul_Tinv_symm : (T_drive * Tinv_drive)ᵀ = T_drive * Tinv_drive := by
  ext i j
  fin_cases i <;> fin_cases j <;>
    simp [Matrix.transpose_apply, Matrix.mul_apply, Fin.sum_univ_three,
      T_drive, Tinv_drive, rinv_eq, lxly_eq, vecTail_const] <;>
    norm_num

/-- C1: for every body velocity (vx, vy, omega), converting to the four
wheel angular rates with the forward matrix `T_drive` and converting back
with the Moore-Penrose pseudo-inverse `Tinv_drive` (as `set_wheel_speed`
does before storing the velocity) reproduces (vx, vy, omega) exactly in
real arithmetic.  The first conjunct checks the four Penrose equations,
identifying `Tinv_drive` as the Moore-Penrose pseudo-inverse of `T_drive`
(in particular `T_drive` has full column rank, since
`Tinv_drive * T_drive = 1` forces injectivity of `T_drive`). -/
theorem kinematics_pinv_roundtrip :
    (T_drive * Tinv_drive * T_drive = T_drive ∧
     Tinv_drive * T_drive * Tinv_drive = Tinv_drive ∧
     (T_drive * Tinv_drive)ᵀ = T_drive * Tinv_drive ∧
     (Tinv_drive * T_drive)ᵀ = Tinv_drive * T_drive) ∧
    ∀ vx vy omega : ℝ,
      Tinv_drive.mulVec (T_drive.mulVec ![vx, vy, omega]) = ![vx, vy, omega] := by
  refine ⟨⟨?_, ?_, T_mul_Tinv_symm, ?_⟩, ?_⟩
  · rw [Matrix.mul_assoc, Tinv_mul_T, Matrix.mul_one]
  · rw [Tinv_mul_T, Matrix.one_mul]
  · rw [Tinv_mul_T, Matrix.transpose_one]
  · intro vx vy omega
    rw [Matrix.mulVec_mulVec, Tinv_mul_T, Matrix.one_mulVec]

/-- C4 counterexample: in the constructed forward matrix, the front-right
row (index 1) has its vx and vy entries with the SAME sign (their product
is positive), contradicting the claimed row shape [±1/r, ∓1/r, …]; and in
the vy column the front-left entry (row 0) and the rear-right entry
(row 3) have OPPOSITE signs (their product is negative), contradicting the
claim that front-left and rear-right contribute with one sign and
front-right and rear-left with the other. -/
theorem kinematics_row_shape_cex :
    0 < T_drive 1 0 * T_drive 1 1 ∧ T_drive 0 1 * T_drive 3 1 < 0 := by
  refine ⟨?_, ?_⟩ <;>
    simp [T_drive, rinv_eq, lxly_eq, vecTail_const]

/-- C4 amended: every entry of the vx and vy columns of the forward matrix
has magnitude 1/r, the vx column has sign pattern (+, -, +, -) (left wheels
positive, right wheels negative), the vy column has sign pattern
(-, -, +, +) — the FRONT wheels contribute oppositely to the REAR wheels,
not the diagonal pairing — and all four entries of the omega column equal
-(lx+ly)/r with lx+ly = wheelBase/2 + track/2 (negative, same lever arm). -/
theorem kinematics_matrix_shape :
    (∀ i : Fin 4,
       (T_drive i 0 = rinv ∨ T_drive i 0 = -rinv) ∧
       (T_drive i 1 = rinv ∨ T_drive i 1 = -rinv) ∧
       T_drive i 2 = -lxly) ∧
    (rinv = 1 / wheel_radius ∧
     lxly = (wheel_base / 2 + track / 2) / wheel_radius) ∧
    (0 < T_drive 0 0 ∧ T_drive 1 0 < 0 ∧ 0 < T_drive 2 0 ∧ T_drive 3 0 < 0) ∧
    (T_drive 0 1 < 0 ∧ T_drive 1 1 < 0 ∧ 0 < T_drive 2 1 ∧ 0 < T_drive 3 1) ∧
    (∀ i : Fin 4, T_drive i 2 < 0) := by
  refine ⟨?_, ⟨rfl, rfl⟩, ?_, ?_, ?_⟩
  · intro i
    fin_cases i <;>
      simp [T_drive, rinv_eq, lxly_eq, vecTail_const]
  · refine ⟨?_, ?_, ?_, ?_⟩ <;>
      simp [T_drive, rinv_eq, lxly_eq, vecTail_const]
  · refine ⟨?_, ?_, ?_, ?_⟩ <;>
      simp [T_drive, rinv_eq, lxly_eq, vecTail_const]
  · intro i
    fin_cases i <;>
      simp [T_drive, rinv_eq, lxly_eq, vecTail_const]

/-! ## Pose integrator (robot.py, trigger, lines 194-222)

One tick of the integration loop, given the elapsed time and the time
since the last command:
```
if last_command_arrival.to_sec() > 0.5:
    self._v[0] = 0; self._v[1] = 0; self._omega = 0
self._theta += self._omega * elapsed
cos_theta = math.cos(self._theta); sin_theta = math.sin(self._theta)
v[0] = cos_theta*self._v[0] - sin_theta * self._v[1]
v[1] = sin_theta*self._v[0] + cos_theta * self._v[1]
self._coords[0] += v[0] * elapsed
self._coords[1] += v[1] * elapsed
```
There is no guard on the sign of `elapsed`.  The reset branch (lines
268-273) and the message publishing are outside the cited integration
step and are not part of this state transition. -/

structure Pose where
  x : ℝ
  y : ℝ
  theta : ℝ
deriving DecidableEq

/-- One integration tick: takes the pose, the stored body velocity
(vx, vy), the stored angular rate omega, the time since the last command
and the elapsed time; returns the new pose together with the (possibly
watchdog-zeroed) stored velocity and angular rate. -/
def trigger_step (p : Pose) (v : ℝ × ℝ) (omega : ℝ)
    (last_command_arrival elapsed : ℝ) : Pose × (ℝ × ℝ) × ℝ :=
  let v' := if last_command_arrival > 0.5 then ((0 : ℝ), (0 : ℝ)) else v
  let omega' := if last_command_arrival > 0.5 then (0 : ℝ) else omega
  let theta' := p.theta + omega' * elapsed
  let vx := Real.cos theta' * v'.1 - Real.sin theta' * v'.2
  let vy := Real.sin theta' * v'.1 + Real.cos theta' * v'.2
  (⟨p.x + vx * elapsed, p.y + vy * elapsed, theta'⟩, v', omega')

/-- C3 counterexample: a tick with elapsed time dt = -1 does NOT leave the
pose unchanged: starting at the origin with heading 0, stored velocity
(1, 0) and a fresh command, the robot moves to x = -1.  The code has no
guard on negative elapsed time. -/
theorem trigger_negative_dt_cex :
    (trigger_step ⟨0, 0, 0⟩ (1, 0) 0 0 (-1)).1 ≠ ⟨0, 0, 0⟩ ∧
    (trigger_step ⟨0, 0, 0⟩ (1, 0) 0 0 (-1)).1.x = -1 := by
  constructor
  · intro h
    have hx := congrArg Pose.x h
    norm_num [trigger_step, Real.cos_zero, Real.sin_zero] at hx
  · norm_num [trigger_step, Real.cos_zero, Real.sin_zero]

/-- C3 amended: a tick whose elapsed time dt is exactly zero leaves
position and heading unchanged, for every stored velocity and angular
rate; but a negative dt is NOT guarded against: the displacement
`v·dt` is applied with its sign, so the pose integrates backwards
(see the counterexample). -/
theorem trigger_zero_dt_noop (p : Pose) (v : ℝ × ℝ) (omega : ℝ)
    (last_command_arrival : ℝ) :
    (trigger_step p v omega last_command_arrival 0).1 = p := by
  simp [trigger_step]

/-- C3 amended, witness. -/
theorem trigger_zero_dt_noop_witness :
    (trigger_step ⟨1, 2, 3⟩ (4, 5) 6 0.2 0).1 = ⟨1, 2, 3⟩ :=
  trigger_zero_dt_noop ⟨1, 2, 3⟩ (4, 5) 6 0.2

/-- C5: for every robot state in which the time since the last received
command exceeds 0.5 s, a tick leaves position and heading unchanged —
the stored velocity and angular rate are forced to zero before
integration — regardless of the previously stored velocity and of the
elapsed time. -/
theorem trigger_watchdog_noop (p : Pose) (v : ℝ × ℝ) (omega : ℝ)
    (last_command_arrival elapsed : ℝ)
    (h : last_command_arrival > 0.5) :
    (trigger_step p v omega last_command_arrival elapsed).1 = p ∧
    (trigger_step p v omega last_command_arrival elapsed).2.1 = (0, 0) ∧
    (trigger_step p v omega last_command_arrival elapsed).2.2 = 0 := by
  refine ⟨?_, ?_, ?_⟩ <;> simp [trigger_step, h]

/-- C5 witness. -/
theorem trigger_watchdog_noop_witness :
    (trigger_step ⟨1, 2, 3⟩ (4, 5) 6 0.6 0.04).1 = ⟨1, 2, 3⟩ ∧
    (trigger_step ⟨1, 2, 3⟩ (4, 5) 6 0.6 0.04).2.1 = (0, 0) ∧
    (trigger_step ⟨1, 2, 3⟩ (4, 5) 6 0.6 0.04).2.2 = 0 :=
  trigger_watchdog_noop ⟨1, 2, 3⟩ (4, 5) 6 0.6 0.04 (by norm_num)

/-! ## Geometry primitives (robot.py, lines 523-617)

`line_line_intersection` and `circle_line_intersection` are translated
twice: once as total real-valued functions (Python partiality replaced by
the value actually computed, since every guard in the code prevents the
partial operations from being reached), and once as Option-valued
functions in which each partial operation of the source — math.sqrt of a
possibly-negative argument and division by a possibly-zero number — is
guarded and returns none when its Python counterpart would raise. -/

/-- line_length (robot.py line 523). -/
def line_length (p1 p2 : ℝ × ℝ) : ℝ :=
  Real.sqrt ((p1.1 - p2.1) * (p1.1 - p2.1) + (p1.2 - p2.2) * (p1.2 - p2.2))

/-- Inner helper line(p1, p2) of line_line_intersection: coefficients
(A, B, -C) of the implicit line through p1 and p2. -/
def lineCoeffs (p1 p2 : ℝ × ℝ) : ℝ × ℝ × ℝ :=
  (p1.2 - p2.2, p2.1 - p1.1, -(p1.1 * p2.2 - p2.1 * p1.2))

/-- Inner helper intersection(L1, L2) of line_line_intersection: the
intersection point of two implicit-form lines, or none when the
determinant D is zero (the Python code returns False, which the caller
treats as falsy; a coordinate pair is always truthy). -/
def lineIntersectionPt (L1 L2 : ℝ × ℝ × ℝ) : Option (ℝ × ℝ) :=
  let D := L1.1 * L2.2.1 - L1.2.1 * L2.1
  let Dx := L1.2.2 * L2.2.1 - L1.2.1 * L2.2.2
  let Dy := L1.1 * L2.2.2 - L1.2.2 * L2.1
  if D ≠ 0 then some (Dx / D, Dy / D) else none

/-- Inner helper dot_product(p1, p2) of line_line_intersection. -/
def dot_product (p1 p2 : ℝ × ℝ) : ℝ :=
  p1.1 * p2.1 + p1.2 * p2.2

/-- line_line_intersection (robot.py lines 526-565), total model: every
degenerate (parallel) and no-hit case yields the sentinel -1. -/
def line_line_intersection
    (start_line end_line coords_sensor coords_far : ℝ × ℝ) : ℝ :=
  match lineIntersectionPt (lineCoeffs start_line end_line)
      (lineCoeffs coords_sensor coords_far) with
  | some ci =>
      let dot1 := dot_product (ci.1 - coords_sensor.1, ci.2 - coords_sensor.2)
        (ci.1 - coords_far.1, ci.2 - coords_far.2)
      let dot2 := dot_product (ci.1 - start_line.1, ci.2 - start_line.2)
        (ci.1 - end_line.1, ci.2 - end_line.2)
      if dot1 ≥ 0 ∨ dot2 ≥ 0 then -1 else line_length ci coords_sensor
  | none => -1

/-- line_length with the math.sqrt domain guard made explicit: none when
Python would raise on a negative radicand. -/
def line_lengthChecked (p1 p2 : ℝ × ℝ) : Option ℝ :=
  if 0 ≤ (p1.1 - p2.1) * (p1.1 - p2.1) + (p1.2 - p2.2) * (p1.2 - p2.2) then
    some (line_length p1 p2)
  else none

/-- line_line_intersection with every partial operation guarded.  The
division by D is already guarded by the source itself (inside
`lineIntersectionPt`); the only other partial operation is the final
math.sqrt inside line_length. -/
def line_line_intersectionChecked
    (start_line end_line coords_sensor coords_far : ℝ × ℝ) : Option ℝ :=
  match lineIntersectionPt (lineCoeffs start_line end_line)
      (lineCoeffs coords_sensor coords_far) with
  | some ci =>
      let dot1 := dot_product (ci.1 - coords_sensor.1, ci.2 - coords_sensor.2)
        (ci.1 - coords_far.1, ci.2 - coords_far.2)
      let dot2 := dot_product (ci.1 - start_line.1, ci.2 - start_line.2)
        (ci.1 - end_line.1, ci.2 - end_line.2)
      if dot1 ≥ 0 ∨ dot2 ≥ 0 then some (-1)
      else line_lengthChecked ci coords_sensor
  | none => some (-1)

/-- circle_line_intersection (robot.py lines 567-617), total model.  In
the lam ≤ 0 branch the source keeps dist = -1 and v_hit = (0, 0), so the
final test `dist > 0 and dot > 0` is false and -1 is returned; the branch
is folded accordingly. -/
def circle_line_intersection (coords_obstacle : ℝ × ℝ) (r : ℝ)
    (coords_sensor coords_far : ℝ × ℝ) : ℝ :=
  let x1c := coords_sensor.1 - coords_obstacle.1
  let y1c := coords_sensor.2 - coords_obstacle.2
  let x2c := coords_far.1 - coords_obstacle.1
  let y2c := coords_far.2 - coords_obstacle.2
  let dx := x2c - x1c
  let dy := y2c - y1c
  let dr := Real.sqrt (dx * dx + dy * dy)
  let det := x1c * y2c - x2c * y1c
  let sgn : ℝ := if dy < 0 then -1 else 1
  let lam := r * r * dr * dr - det * det
  if 0 < lam then
    let s := Real.sqrt lam
    let i1 : ℝ × ℝ :=
      ((det * dy + sgn * dx * s) / (dr * dr) + coords_obstacle.1,
       (-det * dx + |dy| * s) / (dr * dr) + coords_obstacle.2)
    let i2 : ℝ × ℝ :=
      ((det * dy - sgn * dx * s) / (dr * dr) + coords_obstacle.1,
       (-det * dx - |dy| * s) / (dr * dr) + coords_obstacle.2)
    let dist1 := line_length i1 coords_sensor
    let dist2 := line_length i2 coords_sensor
    let dist := if dist1 < dist2 then dist1 else dist2
    let v_hit : ℝ × ℝ := if dist1 < dist2
      then (i1.1 - coords_sensor.1, i1.2 - coords_sensor.2)
      else (i2.1 - coords_sensor.1, i2.2 - coords_sensor.2)
    let v_face := (coords_far.1 - coords_sensor.1, coords_far.2 - coords_sensor.2)
    let dot := v_face.1 * v_hit.1 + v_face.2 * v_hit.2
    if 0 < dist ∧ 0 < dot then dist else -1
  else -1

/-- circle_line_intersection with every partial operation guarded: the
two math.sqrt calls (on dx²+dy² and on lam) and the divisions by dr·dr
return none where Python would raise. -/
def circle_line_intersectionChecked (coords_obstacle : ℝ × ℝ) (r : ℝ)
    (coords_sensor coords_far : ℝ × ℝ) : Option ℝ :=
  let x1c := coords_sensor.1 - coords_obstacle.1
  let y1c := coords_sensor.2 - coords_obstacle.2
  let x2c := coords_far.1 - coords_obstacle.1
  let y2c := coords_far.2 - coords_obstacle.2
  let dx := x2c - x1c
  let dy := y2c - y1c
  if 0 ≤ dx * dx + dy * dy then
    let dr := Real.sqrt (dx * dx + dy * dy)
    let det := x1c * y2c - x2c * y1c
    let sgn : ℝ := if dy < 0 then -1 else 1
    let lam := r * r * dr * dr - det * det
    if 0 < lam then
      if dr * dr = 0 then none
      else if 0 ≤ lam then
        let s := Real.sqrt lam
        let i1 : ℝ × ℝ :=
          ((det * dy + sgn * dx * s) / (dr * dr) + coords_obstacle.1,
           (-det * dx + |dy| * s) / (dr * dr) + coords_obstacle.2)
        let i2 : ℝ × ℝ :=
          ((det * dy - sgn * dx * s) / (dr * dr) + coords_obstacle.1,
           (-det * dx - |dy| * s) / (dr * dr) + coords_obstacle.2)
        if 0 ≤ (i1.1 - coords_sensor.1) * (i1.1 - coords_sensor.1) +
            (i1.2 - coords_sensor.2) * (i1.2 - coords_sensor.2) then
          if 0 ≤ (i2.1 - coords_sensor.1) * (i2.1 - coords_sensor.1) +
              (i2.2 - coords_sensor.2) * (i2.2 - coords_sensor.2) then
            let dist1 := line_length i1 coords_sensor
            let dist2 := line_length i2 coords_sensor
            let dist := if dist1 < dist2 then dist1 else dist2
            let v_hit : ℝ × ℝ := if dist1 < dist2
              then (i1.1 - coords_sensor.1, i1.2 - coords_sensor.2)
              else (i2.1 - coords_sensor.1, i2.2 - coords_sensor.2)
            let v_face := (coords_far.1 - coords_sensor.1,
              coords_far.2 - coords_sensor.2)
            let dot := v_face.1 * v_hit.1 + v_face.2 * v_hit.2
            if 0 < dist ∧ 0 < dot then some dist else some (-1)
          else none
        else none
      else none
    else some (-1)
  else none

/-- The determinant D of the two implicit lines in
line_line_intersection (zero exactly for the parallel/degenerate case). -/
def lineD (start_line end_line coords_sensor coords_far : ℝ × ℝ) : ℝ :=
  (lineCoeffs start_line end_line).1 *
      (lineCoeffs coords_sensor coords_far).2.1 -
    (lineCoeffs start_line end_line).2.1 *
      (lineCoeffs coords_sensor coords_far).1

/-- The discriminant lam of circle_line_intersection (non-positive exactly
for the non-intersecting or tangent case, including a degenerate
zero-length sensor ray). -/
def circleLam (coords_obstacle : ℝ × ℝ) (r : ℝ)
    (coords_sensor coords_far : ℝ × ℝ) : ℝ :=
  let x1c := coords_sensor.1 - coords_obstacle.1
  let y1c := coords_sensor.2 - coords_obstacle.2
  let x2c := coords_far.1 - coords_obstacle.1
  let y2c := coords_far.2 - coords_obstacle.2
  let dx := x2c - x1c
  let dy := y2c - y1c
  let dr := Real.sqrt (dx * dx + dy * dy)
  let det := x1c * y2c - x2c * y1c
  r * r * dr * dr - det * det

/-- C6: for every input — including coincident sensor and far points,
zero-length segments, parallel lines, and non-intersecting circle/line
configurations — the two intersection queries are total: every partial
operation of the source succeeds, so the guarded Option-valued
translations always return some value, equal to the value of the total
translations; and both functions signal the degenerate cases (parallel
lines: D = 0; non-intersecting or degenerate circle/line: lam ≤ 0) with
the same negative sentinel -1. -/
theorem intersection_queries_total
    (start_line end_line line_sensor line_far : ℝ × ℝ)
    (coords_obstacle : ℝ × ℝ) (r : ℝ) (coords_sensor coords_far : ℝ × ℝ) :
    (line_line_intersectionChecked start_line end_line line_sensor line_far =
      some (line_line_intersection start_line end_line line_sensor line_far)) ∧
    (circle_line_intersectionChecked coords_obstacle r coords_sensor coords_far =
      some (circle_line_intersection coords_obstacle r coords_sensor coords_far)) ∧
    (lineD start_line end_line line_sensor line_far = 0 →
      line_line_intersection start_line end_line line_sensor line_far = -1) ∧
    (circleLam coords_obstacle r coords_sensor coords_far ≤ 0 →
      circle_line_intersection coords_obstacle r coords_sensor coords_far = -1) := by
  refine ⟨?_, ?_, ?_, ?_⟩
  · cases h : lineIntersectionPt (lineCoeffs start_line end_line)
        (lineCoeffs line_sensor line_far) with
    | none => simp [line_line_intersectionChecked, line_line_intersection, h]
    | some ci =>
        simp only [line_line_intersectionChecked, line_line_intersection, h]
        split_ifs
        · rfl
        · rw [line_lengthChecked,
            if_pos (add_nonneg (mul_self_nonneg _) (mul_self_nonneg _))]
  · simp only [circle_line_intersectionChecked, circle_line_intersection]
    set dx := coords_far.1 - coords_obstacle.1 -
      (coords_sensor.1 - coords_obstacle.1) with hdx
    set dy := coords_far.2 - coords_obstacle.2 -
      (coords_sensor.2 - coords_obstacle.2) with hdy
    have hA : 0 ≤ dx * dx + dy * dy :=
      add_nonneg (mul_self_nonneg _) (mul_self_nonneg _)
    rw [if_pos hA]
    set dr := Real.sqrt (dx * dx + dy * dy) with hdr
    set det := (coords_sensor.1 - coords_obstacle.1) *
        (coords_far.2 - coords_obstacle.2) -
      (coords_far.1 - coords_obstacle.1) *
        (coords_sensor.2 - coords_obstacle.2) with hdet
    by_cases hl : 0 < r * r * dr * dr - det * det
    · have hdr2 : ¬ (dr * dr = 0) := by
        intro h0
        nlinarith [mul_self_nonneg det, h0, hl]
      rw [if_pos hl, if_pos hl, if_neg hdr2, if_pos hl.le,
        if_pos (add_nonneg (mul_self_nonneg _) (mul_self_nonneg _)),
        if_pos (add_nonneg (mul_self_nonneg _) (mul_self_nonneg _))]
      exact (apply_ite some _ _ _).symm
    · rw [if_neg hl, if_neg hl]
  · intro h
    have hnone : lineIntersectionPt (lineCoeffs start_line end_line)
        (lineCoeffs line_sensor line_far) = none := by
      simp only [lineD] at h
      simp only [lineIntersectionPt]
      rw [if_neg (not_ne_iff.mpr h)]
    rw [line_line_intersection, hnone]
  · intro h
    simp only [circleLam] at h
    simp only [circle_line_intersection]
    rw [if_neg (not_lt.mpr h)]

/-- C6 witness: at concrete degenerate inputs — two parallel horizontal
and vertical-offset lines, and a coincident sensor/far point pair away
from a circle — both checked queries succeed and both report -1. -/
theorem intersection_queries_total_witness :
    line_line_intersection (0, 0) (1, 0) (0, 1) (1, 1) = -1 ∧
    circle_line_intersection (5, 5) 1 (0, 0) (0, 0) = -1 ∧
    line_line_intersectionChecked (0, 0) (1, 0) (0, 1) (1, 1) = some (-1) ∧
    circle_line_intersectionChecked (5, 5) 1 (0, 0) (0, 0) = some (-1) := by
  have h := intersection_queries_total (0, 0) (1, 0) (0, 1) (1, 1)
    (5, 5) 1 (0, 0) (0, 0)
  have hD : lineD (0, 0) (1, 0) (0, 1) (1, 1) = 0 := by
    norm_num [lineD, lineCoeffs]
  have hlam : circleLam (5, 5) 1 (0, 0) (0, 0) ≤ 0 := by
    norm_num [circleLam, Real.sqrt_zero]
  have hline := h.2.2.1 hD
  have hcirc := h.2.2.2 hlam
  refine ⟨hline, hcirc, ?_, ?_⟩
  · rw [h.1, hline]
  · rw [h.2.1, hcirc]

/-- C7: when the infinite-line intersection point computed by
line_line_intersection falls exactly on one of the four endpoints (a
segment endpoint, the sensor point, or the far point), the function
returns the no-hit sentinel -1; and a non-sentinel hit is possible only
when both endpoint-pair dot products are strictly negative — every
boundary tie (dot product zero) goes to no-hit. -/
theorem line_line_boundary_ties
    (start_line end_line coords_sensor coords_far : ℝ × ℝ) :
    (∀ ci, lineIntersectionPt (lineCoeffs start_line end_line)
        (lineCoeffs coords_sensor coords_far) = some ci →
      (ci = start_line ∨ ci = end_line ∨ ci = coords_sensor ∨ ci = coords_far) →
      line_line_intersection start_line end_line coords_sensor coords_far = -1) ∧
    (line_line_intersection start_line end_line coords_sensor coords_far = -1 ∨
     ∀ ci, lineIntersectionPt (lineCoeffs start_line end_line)
        (lineCoeffs coords_sensor coords_far) = some ci →
       dot_product (ci.1 - coords_sensor.1, ci.2 - coords_sensor.2)
           (ci.1 - coords_far.1, ci.2 - coords_far.2) < 0 ∧
       dot_product (ci.1 - start_line.1, ci.2 - start_line.2)
           (ci.1 - end_line.1, ci.2 - end_line.2) < 0) := by
  constructor
  · intro ci h hmem
    rw [line_line_intersection, h]
    simp only
    rcases hmem with h1 | h1 | h1 | h1 <;> subst h1 <;>
      rw [if_pos] <;> simp [dot_product]
  · cases h : lineIntersectionPt (lineCoeffs start_line end_line)
        (lineCoeffs coords_sensor coords_far) with
    | none =>
        left
        rw [line_line_intersection, h]
    | some ci =>
        by_cases hc :
          dot_product (ci.1 - coords_sensor.1, ci.2 - coords_sensor.2)
              (ci.1 - coords_far.1, ci.2 - coords_far.2) ≥ 0 ∨
          dot_product (ci.1 - start_line.1, ci.2 - start_line.2)
              (ci.1 - end_line.1, ci.2 - end_line.2) ≥ 0
        · left
          rw [line_line_intersection, h]
          simp only
          exact if_pos hc
        · right
          intro ci' h'
          have hci : ci' = ci := (Option.some.inj h').symm
          subst hci
          push_neg at hc
          exact hc

/-- C7 witness: the ray from (0, 1) to (2, 1) meets the infinite line
through the segment from (1, -1) to (1, 1) exactly at the segment
endpoint (1, 1), and the query reports no-hit. -/
theorem line_line_boundary_ties_witness :
    line_line_intersection (1, -1) (1, 1) (0, 1) (2, 1) = -1 :=
  (line_line_boundary_ties (1, -1) (1, 1) (0, 1) (2, 1)).1 (1, 1)
    (by norm_num [lineIntersectionPt, lineCoeffs])
    (Or.inr (Or.inl rfl))

/-- line_length along a unit ray: the distance from (sx, sy) to the point
c units along the unit direction (ux, uy) is c. -/
lemma line_length_ray (sx sy ux uy c : ℝ) (hu : ux * ux + uy * uy = 1)
    (hc : 0 ≤ c) :
    line_length (sx + c * ux, sy + c * uy) (sx, sy) = c := by
  unfold line_length
  dsimp only
  rw [show (sx + c * ux - sx) * (sx + c * ux - sx) +
      (sy + c * uy - sy) * (sy + c * uy - sy) = c * c from by
    linear_combination (c * c) * hu]
  exact Real.sqrt_mul_self hc

/-- C8: for every circle of radius r > 0 and every sensor strictly outside
it at distance d > r from the center, with the far point on the ray through
the center beyond the circle (t > d + r along the unit direction (ux, uy)),
circle_line_intersection returns d - r — the nearer intersection point,
validated as in front of the sensor — regardless of the sign convention
branch taken in the intermediate quadratic solution (the proof covers both
the dy < 0 and the dy ≥ 0 branch of sgn and |dy|). -/
theorem circle_center_ray_hit (sx sy ux uy d r t : ℝ)
    (hu : ux * ux + uy * uy = 1) (hr : 0 < r) (hd : r < d) (ht : d + r < t) :
    circle_line_intersection (sx + d * ux, sy + d * uy) r (sx, sy)
      (sx + t * ux, sy + t * uy) = d - r := by
  have ht0 : 0 < t := by linarith
  have hrt : 0 < r * t := mul_pos hr ht0
  have htne : t ≠ 0 := ne_of_gt ht0
  simp only [circle_line_intersection]
  dsimp only
  rw [show sx + t * ux - (sx + d * ux) - (sx - (sx + d * ux)) = t * ux from by
    ring]
  rw [show sy + t * uy - (sy + d * uy) - (sy - (sy + d * uy)) = t * uy from by
    ring]
  rw [show (sx - (sx + d * ux)) * (sy + t * uy - (sy + d * uy)) -
      (sx + t * ux - (sx + d * ux)) * (sy - (sy + d * uy)) = 0 from by ring]
  rw [show t * ux * (t * ux) + t * uy * (t * uy) = t * t from by
    linear_combination (t * t) * hu]
  rw [Real.sqrt_mul_self ht0.le]
  rw [show r * r * t * t - 0 * 0 = (r * t) * (r * t) from by ring]
  rw [Real.sqrt_mul_self hrt.le]
  rw [if_pos (mul_pos hrt hrt)]
  rcases lt_or_le (t * uy) 0 with hsg | hsg
  · rw [if_pos hsg, abs_of_neg hsg]
    rw [show (0 * (t * uy) + -1 * (t * ux) * (r * t)) / (t * t) + (sx + d * ux) =
        sx + (d - r) * ux from by field_simp; ring]
    rw [show (-0 * (t * ux) + - (t * uy) * (r * t)) / (t * t) + (sy + d * uy) =
        sy + (d - r) * uy from by field_simp; ring]
    rw [show (0 * (t * uy) - -1 * (t * ux) * (r * t)) / (t * t) + (sx + d * ux) =
        sx + (d + r) * ux from by field_simp; ring]
    rw [show (-0 * (t * ux) - - (t * uy) * (r * t)) / (t * t) + (sy + d * uy) =
        sy + (d + r) * uy from by field_simp; ring]
    rw [line_length_ray sx sy ux uy (d - r) hu (by linarith)]
    rw [line_length_ray sx sy ux uy (d + r) hu (by linarith)]
    have hlt : d - r < d + r := by linarith
    rw [if_pos hlt, if_pos hlt]
    dsimp only
    rw [show (sx + t * ux - sx) * (sx + (d - r) * ux - sx) +
        (sy + t * uy - sy) * (sy + (d - r) * uy - sy) = t * (d - r) from by
      linear_combination (t * (d - r)) * hu]
    rw [if_pos ⟨by linarith, mul_pos ht0 (by linarith)⟩]
  · rw [if_neg (not_lt.mpr hsg), abs_of_nonneg hsg]
    rw [show (0 * (t * uy) + 1 * (t * ux) * (r * t)) / (t * t) + (sx + d * ux) =
        sx + (d + r) * ux from by field_simp; ring]
    rw [show (-0 * (t * ux) + t * uy * (r * t)) / (t * t) + (sy + d * uy) =
        sy + (d + r) * uy from by field_simp; ring]
    rw [show (0 * (t * uy) - 1 * (t * ux) * (r * t)) / (t * t) + (sx + d * ux) =
        sx + (d - r) * ux from by field_simp; ring]
    rw [show (-0 * (t * ux) - t * uy * (r * t)) / (t * t) + (sy + d * uy) =
        sy + (d - r) * uy from by field_simp; ring]
    rw [line_length_ray sx sy ux uy (d + r) hu (by linarith)]
    rw [line_length_ray sx sy ux uy (d - r) hu (by linarith)]
    have hlt : ¬ (d + r < d - r) := by linarith
    rw [if_neg hlt, if_neg hlt]
    dsimp only
    rw [show (sx + t * ux - sx) * (sx + (d - r) * ux - sx) +
        (sy + t * uy - sy) * (sy + (d - r) * uy - sy) = t * (d - r) from by
      linear_combination (t * (d - r)) * hu]
    rw [if_pos ⟨by linarith, mul_pos ht0 (by linarith)⟩]

/-- C8 witness: sensor at the origin, circle of radius 1 centred at (2, 0),
far point (4, 0) on the ray through the centre: the reported distance is
2 - 1 = 1. -/
theorem circle_center_ray_hit_witness :
    circle_line_intersection (2, 0) 1 (0, 0) (4, 0) = 1 := by
  have h := circle_center_ray_hit 0 0 1 0 2 1 4 (by norm_num) (by norm_num)
    (by norm_num) (by norm_num)
  norm_num at h
  exact h

/-! ## ToF ring sensor model (robot.py, lines 446-496)

The per-robot sensor configuration (the lists _phi_tof and _t_tof, the
heading and coordinates, and the range _rng_tof) is passed explicitly.
get_facing_tof rotates the unit vector (1.0, 0.0) by theta + phi;
get_pos_tof and get_far_tof advance the robot centre along the facing
vector by t_tof[i] and by t_tof[i] + rng_tof respectively.
get_distance_to_line_obstacle seeds the accumulator with the sensor range
when its length disagrees, then takes a running minimum over sensors of
`line_line_intersection(...) + t_tof[i]` — note the mount offset is ADDED
to the intersection distance (which is measured from the sensor), so the
recorded distance is measured from the robot centre. -/

def get_facing_tof (theta : ℝ) (phi_tof : List ℝ) : List (ℝ × ℝ) :=
  phi_tof.map fun phi =>
    (Real.cos (theta + phi) * 1.0 - Real.sin (theta + phi) * 0.0,
     Real.sin (theta + phi) * 1.0 + Real.cos (theta + phi) * 0.0)

def get_pos_tof (coords : ℝ × ℝ) (theta : ℝ)
    (phi_tof t_tof : List ℝ) : List (ℝ × ℝ) :=
  ((get_facing_tof theta phi_tof).zip t_tof).map fun ft =>
    (coords.1 + ft.1.1 * ft.2, coords.2 + ft.1.2 * ft.2)

def get_far_tof (coords : ℝ × ℝ) (theta : ℝ)
    (phi_tof t_tof : List ℝ) (rng_tof : ℝ) : List (ℝ × ℝ) :=
  ((get_facing_tof theta phi_tof).zip t_tof).map fun ft =>
    (coords.1 + ft.1.1 * (ft.2 + rng_tof), coords.2 + ft.1.2 * (ft.2 + rng_tof))

def get_distance_to_line_obstacle (start_line end_line : ℝ × ℝ)
    (coords : ℝ × ℝ) (theta : ℝ) (phi_tof t_tof : List ℝ) (rng_tof : ℝ)
    (dist_to_obstacles : List ℝ) : List ℝ :=
  let seeded := if dist_to_obstacles.length ≠ phi_tof.length
    then dist_to_obstacles ++ List.replicate phi_tof.length rng_tof
    else dist_to_obstacles
  let pos_tof := get_pos_tof coords theta phi_tof t_tof
  let far_tof := get_far_tof coords theta phi_tof t_tof rng_tof
  ((List.range phi_tof.length).map fun i =>
    let dist := line_line_intersection start_line end_line
      (pos_tof.getD i (0, 0)) (far_tof.getD i (0, 0)) + t_tof.getD i 0
    let cur := seeded.getD i 0
    if dist < cur ∧ 0 < dist then dist else cur) ++
  seeded.drop phi_tof.length

/-- The C2 scenario: robot at the origin with heading 0, a single ToF
sensor with angular offset 0 rad and mount offset 0.2 m, sensor range
8.0 m, obstacle the vertical segment from (1, -1) to (1, 2) crossing the
sensor ray 1 m directly ahead of the robot centre, empty accumulator. -/
def tof_line_scenario : List ℝ :=
  get_distance_to_line_obstacle (1, -1) (1, 2) (0, 0) 0 [0] [0.2] 8 []

lemma scenario_line_eval :
    line_line_intersection (1, -1) (1, 2) (1/5, 0) (41/5, 0) = 4/5 := by
  have h : lineIntersectionPt (lineCoeffs (1, -1) (1, 2))
      (lineCoeffs ((1/5 : ℝ), (0 : ℝ)) ((41/5 : ℝ), (0 : ℝ))) =
        some (1, 0) := by
    norm_num [lineIntersectionPt, lineCoeffs]
  rw [line_line_intersection, h]
  simp only
  rw [if_neg (by norm_num [dot_product])]
  unfold line_length
  dsimp only
  rw [show ((1 : ℝ) - 1/5) * (1 - 1/5) + (0 - 0) * (0 - 0) =
      (4/5) * (4/5) from by norm_num]
  exact Real.sqrt_mul_self (by norm_num)

lemma tof_line_scenario_eval : tof_line_scenario = [1] := by
  have hfacing : get_facing_tof 0 [0] = [(1, 0)] := by
    norm_num [get_facing_tof]
  have hpos : get_pos_tof (0, 0) 0 [0] [0.2] = [(1/5, 0)] := by
    norm_num [get_pos_tof, hfacing]
  have hfar : get_far_tof (0, 0) 0 [0] [0.2] 8 = [(41/5, 0)] := by
    norm_num [get_far_tof, hfacing]
  unfold tof_line_scenario get_distance_to_line_obstacle
  rw [hpos, hfar]
  norm_num [List.range_succ, scenario_line_eval]

/-- C2 counterexample: in the scenario of the claim the reported distance
is NOT 0.8 m.  The sensor-to-obstacle intersection distance is 0.8 m, but
get_distance_to_line_obstacle ADDS the mount offset t_tof[i] = 0.2 before
storing, so the reported value is 1.0 m. -/
theorem tof_scenario_cex : tof_line_scenario ≠ [(0.8 : ℝ)] := by
  rw [tof_line_scenario_eval]
  intro h
  exact absurd (List.cons.inj h).1 (by norm_num)

/-- C2 amended: for a robot with a single ToF sensor facing 0 rad with
mount offset 0.2 m, and a vertical segment obstacle 1 m directly ahead of
the robot centre, the line-obstacle query reports 1.0 m for that sensor:
the 0.8 m sensor-to-obstacle distance PLUS the 0.2 m mount offset — the
query reports distances measured from the robot centre, not from the
sensor. -/
theorem tof_scenario_reports_center_distance : tof_line_scenario = [1] :=
  tof_line_scenario_eval

/-! ## Raster scanner / LiDAR model (robot.py, lines 282-381)

Class constants: _obstacle_radius = 0.2, _laser_range = 8.0,
_angle_min = radians(-135), _angle_inc = radians(1.0), _laserbeams = 271.
The occupancy map is a grid of colour samples addressed by integer pixel
coordinates; a cell is occupied when its colour is black (0,0,0) or red
(255,0,0).  calculate_lidar_angle walks the Bresenham-rasterized beam and
tints traversed clear cells with (0,208,255).  LiDAR_sensing runs one
beam per angle and collects distances by beam index; the thread fan-out of
the source is modelled by the sequential per-index order (results are
keyed by index, so completion order does not affect the returned list). -/

def obstacle_radius : ℝ := 0.2

def laser_range : ℝ := 8.0

def angle_min : ℝ := Real.pi * (-135) / 180

def angle_inc : ℝ := Real.pi * 1.0 / 180

def laserbeams : ℕ := 271

def angle_max : ℝ := angle_min + (laserbeams - 1) * angle_inc

/-- Python int(): truncation toward zero. -/
def pyTrunc (x : ℝ) : ℤ := if 0 ≤ x then ⌊x⌋ else ⌈x⌉

structure GridMap where
  width : ℤ
  height : ℤ
  colorAt : ℤ × ℤ → ℕ × ℕ × ℕ

/-- map.set_at((x, y), c). -/
def GridMap.setAt (m : GridMap) (p : ℤ × ℤ) (c : ℕ × ℕ × ℕ) : GridMap :=
  ⟨m.width, m.height, fun q => if q = p then c else m.colorAt q⟩

/-- A colour counts as an obstacle when it is the black obstacle marker or
the red hazard marker. -/
def isObstacleColor (c : ℕ × ℕ × ℕ) : Bool :=
  if c = (0, 0, 0) then true else if c = (255, 0, 0) then true else false

/-- The visualization tint written on traversed clear cells. -/
def tintColor : ℕ × ℕ × ℕ := (0, 208, 255)

/-- The bounds test `0 < x < map.get_width() and 0 < y < map.get_height()`. -/
def inBounds (m : GridMap) (p : ℤ × ℤ) : Prop :=
  0 < p.1 ∧ p.1 < m.width ∧ 0 < p.2 ∧ p.2 < m.height

instance (m : GridMap) (p : ℤ × ℤ) : Decidable (inBounds m p) := by
  unfold inBounds
  infer_instance

/-- The beam-walking loop of calculate_lidar_angle: traverse the
rasterized points in order; out-of-bounds points are skipped; the first
occupied cell terminates the beam with the Euclidean pixel distance
converted to metres; clear in-bounds cells are tinted.  Returns the
distance (laser_range when nothing is hit) and the mutated map. -/
def lidarWalk (r_x r_y meter_to_pixel : ℝ) :
    List (ℤ × ℤ) → GridMap → ℝ × GridMap
  | [], m => (laser_range, m)
  | p :: rest, m =>
      if inBounds m p then
        if isObstacleColor (m.colorAt p) then
          (Real.sqrt (((p.1 : ℝ) - r_x) ^ 2 + ((p.2 : ℝ) - r_y) ^ 2) /
            meter_to_pixel, m)
        else lidarWalk r_x r_y meter_to_pixel rest (m.setAt p tintColor)
      else lidarWalk r_x r_y meter_to_pixel rest m

/-- One iteration state of bresenham_line (robot.py lines 283-305),
recursing on fuel; dx, dy, sx, sy are fixed for the whole loop.  The
source loop runs max(|dx|, |dy|) + 1 iterations, so the fuel supplied by
`bresenham_line` below always suffices. -/
def bresenhamAux (x1 y1 sx sy dx dy : ℤ) (step : ℕ) :
    ℕ → ℤ → ℤ → ℤ → ℕ → List (ℤ × ℤ)
  | 0, _, _, _, _ => []
  | fuel + 1, x0, y0, err, count =>
      let pts : List (ℤ × ℤ) := if count % step = 0 then [(x0, y0)] else []
      if x0 = x1 ∧ y0 = y1 then pts
      else
        let e2 := err * 2
        let err1 := if e2 > -dy then err - dy else err
        let x0n := if e2 > -dy then x0 + sx else x0
        let err2 := if e2 < dx then err1 + dx else err1
        let y0n := if e2 < dx then y0 + sy else y0
        pts ++ bresenhamAux x1 y1 sx sy dx dy step fuel x0n y0n err2 (count + 1)

/-- bresenham_line(x0, y0, x1, y1, step): every step-th lattice point of
the equal-error Bresenham traversal from (x0, y0) to (x1, y1). -/
def bresenham_line (x0 y0 x1 y1 : ℤ) (step : ℕ) : List (ℤ × ℤ) :=
  let dx := |x1 - x0|
  let dy := |y1 - y0|
  let sx : ℤ := if x0 < x1 then 1 else -1
  let sy : ℤ := if y0 < y1 then 1 else -1
  bresenhamAux x1 y1 sx sy dx dy step
    ((x1 - x0).natAbs + (y1 - y0).natAbs + 1) x0 y0 (dx - dy) 0

/-- calculate_lidar_angle (robot.py lines 306-333) for one beam angle:
endpoint computation with Python int() truncation, Bresenham
rasterization with thinning stride 3, then the beam walk. -/
def calculate_lidar_angle (angle : ℝ) (r_x r_y : ℝ) (m : GridMap)
    (meter_to_pixel : ℝ) : ℝ × GridMap :=
  let min_range := obstacle_radius
  let x2 := pyTrunc (r_x + laser_range * meter_to_pixel * Real.cos angle)
  let y2 := pyTrunc (r_y + laser_range * meter_to_pixel * Real.sin angle)
  let x1 := pyTrunc (min_range * meter_to_pixel * Real.cos angle + r_x)
  let y1 := pyTrunc (min_range * meter_to_pixel * Real.sin angle + r_y)
  lidarWalk r_x r_y meter_to_pixel (bresenham_line x1 y1 x2 y2 3) m

/-- np.arange(a, b, -step) for positive step: a, a - step, … while above b
(ceil((a - b) / step) elements). -/
def arangeDown (a b step : ℝ) : List ℝ :=
  (List.range (Int.toNat ⌈(a - b) / step⌉)).map fun k => a - k * step

/-- The sequential beam loop of LiDAR_sensing: each beam is computed with
the map as mutated by the previous beams; distances are collected in beam
order. -/
def scanBeams (r_x r_y : ℝ) : List ℝ → GridMap → List ℝ × GridMap
  | [], m => ([], m)
  | a :: rest, m =>
      let dm := calculate_lidar_angle a r_x r_y m 100
      let tail := scanBeams r_x r_y rest dm.2
      (dm.1 :: tail.1, tail.2)

/-- LiDAR_sensing (robot.py lines 336-381): beam angles run from
-heading + angle_max down to -heading + angle_min in steps of angle_inc. -/
def LiDAR_sensing (robot_pose : ℝ × ℝ × ℝ) (m : GridMap) :
    List ℝ × GridMap :=
  let r_heading := robot_pose.2.2
  let start_angle := -r_heading + angle_min
  let end_angle := -r_heading + angle_max
  scanBeams robot_pose.1 robot_pose.2.1
    (arangeDown end_angle start_angle angle_inc) m

/-- Two maps agree on dimensions and on the obstacle classification of
every cell.  The tint mutation preserves this relation. -/
def obsEquiv (m m' : GridMap) : Prop :=
  m.width = m'.width ∧ m.height = m'.height ∧
  ∀ q, isObstacleColor (m.colorAt q) = isObstacleColor (m'.colorAt q)

lemma obsEquiv_refl (m : GridMap) : obsEquiv m m :=
  ⟨rfl, rfl, fun _ => rfl⟩

lemma obsEquiv_symm {m m' : GridMap} (h : obsEquiv m m') : obsEquiv m' m :=
  ⟨h.1.symm, h.2.1.symm, fun q => (h.2.2 q).symm⟩

lemma obsEquiv_trans {m₁ m₂ m₃ : GridMap} (h : obsEquiv m₁ m₂)
    (h' : obsEquiv m₂ m₃) : obsEquiv m₁ m₃ :=
  ⟨h.1.trans h'.1, h.2.1.trans h'.2.1, fun q => (h.2.2 q).trans (h'.2.2 q)⟩

lemma tint_not_obstacle : isObstacleColor tintColor = false := by
  decide

lemma setAt_tint_obsEquiv {m : GridMap} {p : ℤ × ℤ}
    (h : isObstacleColor (m.colorAt p) = false) :
    obsEquiv m (m.setAt p tintColor) := by
  refine ⟨rfl, rfl, fun q => ?_⟩
  by_cases hq : q = p
  · subst hq
    simp [GridMap.setAt, h, tint_not_obstacle]
  · simp [GridMap.setAt, hq]

lemma walk_obsEquiv (r_x r_y mp : ℝ) (pts : List (ℤ × ℤ)) (m : GridMap) :
    obsEquiv m (lidarWalk r_x r_y mp pts m).2 := by
  induction pts generalizing m with
  | nil => exact obsEquiv_refl m
  | cons p rest ih =>
      rw [lidarWalk]
      by_cases hb : inBounds m p
      · rw [if_pos hb]
        by_cases ho : isObstacleColor (m.colorAt p)
        · rw [if_pos ho]
          exact obsEquiv_refl m
        · rw [if_neg ho]
          exact obsEquiv_trans
            (setAt_tint_obsEquiv (Bool.not_eq_true _ ▸ ho))
            (ih (m.setAt p tintColor))
      · rw [if_neg hb]
        exact ih m

lemma inBounds_congr {m m' : GridMap} (h : obsEquiv m m') (p : ℤ × ℤ) :
    inBounds m p ↔ inBounds m' p := by
  unfold inBounds
  rw [h.1, h.2.1]

lemma walk_congr (r_x r_y mp : ℝ) (pts : List (ℤ × ℤ)) {m m' : GridMap}
    (h : obsEquiv m m') :
    (lidarWalk r_x r_y mp pts m).1 = (lidarWalk r_x r_y mp pts m').1 ∧
    obsEquiv (lidarWalk r_x r_y mp pts m).2 (lidarWalk r_x r_y mp pts m').2 := by
  induction pts generalizing m m' with
  | nil => exact ⟨rfl, h⟩
  | cons p rest ih =>
      rw [lidarWalk, lidarWalk]
      by_cases hb : inBounds m p
      · rw [if_pos hb, if_pos ((inBounds_congr h p).mp hb)]
        by_cases ho : isObstacleColor (m.colorAt p)
        · rw [if_pos ho, if_pos (h.2.2 p ▸ ho)]
          exact ⟨rfl, h⟩
        · rw [if_neg ho, if_neg (h.2.2 p ▸ ho)]
          refine ih ?_
          refine ⟨h.1, h.2.1, fun q => ?_⟩
          by_cases hq : q = p
          · subst hq
            simp [GridMap.setAt]
          · simp [GridMap.setAt, hq, h.2.2 q]
      · rw [if_neg hb, if_neg ((inBounds_congr h p).not.mp hb)]
        exact ih h

lemma beam_obsEquiv (a r_x r_y mp : ℝ) (m : GridMap) :
    obsEquiv m (calculate_lidar_angle a r_x r_y m mp).2 :=
  walk_obsEquiv r_x r_y mp _ m

lemma beam_congr (a r_x r_y mp : ℝ) {m m' : GridMap} (h : obsEquiv m m') :
    (calculate_lidar_angle a r_x r_y m mp).1 =
      (calculate_lidar_angle a r_x r_y m' mp).1 ∧
    obsEquiv (calculate_lidar_angle a r_x r_y m mp).2
      (calculate_lidar_angle a r_x r_y m' mp).2 :=
  walk_congr r_x r_y mp _ h

lemma scan_obsEquiv (r_x r_y : ℝ) (angles : List ℝ) (m : GridMap) :
    obsEquiv m (scanBeams r_x r_y angles m).2 := by
  induction angles generalizing m with
  | nil => exact obsEquiv_refl m
  | cons a rest ih =>
      rw [scanBeams]
      exact obsEquiv_trans (beam_obsEquiv a r_x r_y 100 m)
        (ih (calculate_lidar_angle a r_x r_y m 100).2)

lemma scan_congr (r_x r_y : ℝ) (angles : List ℝ) {m m' : GridMap}
    (h : obsEquiv m m') :
    (scanBeams r_x r_y angles m).1 = (scanBeams r_x r_y angles m').1 ∧
    obsEquiv (scanBeams r_x r_y angles m).2
      (scanBeams r_x r_y angles m').2 := by
  induction angles generalizing m m' with
  | nil => exact ⟨rfl, h⟩
  | cons a rest ih =>
      rw [scanBeams, scanBeams]
      have hb := beam_congr a r_x r_y 100 h
      have ht := ih hb.2
      exact ⟨by rw [hb.1, ht.1], ht.2⟩

/-- C9: for a fixed map and a fixed robot pose, two successive LiDAR scan
queries return identical distance lists.  The visualization tint
(0, 208, 255) is never an obstacle marker and is written only onto clear
cells, so the scan mutation preserves the obstacle classification of
every cell (third conjunct), and hence the returned distances. -/
theorem lidar_scan_deterministic (robot_pose : ℝ × ℝ × ℝ) (m : GridMap) :
    (LiDAR_sensing robot_pose (LiDAR_sensing robot_pose m).2).1 =
      (LiDAR_sensing robot_pose m).1 ∧
    isObstacleColor tintColor = false ∧
    ∀ q, isObstacleColor ((LiDAR_sensing robot_pose m).2.colorAt q) =
      isObstacleColor (m.colorAt q) := by
  refine ⟨?_, tint_not_obstacle, ?_⟩
  · unfold LiDAR_sensing
    exact (scan_congr robot_pose.1 robot_pose.2.1 _
      (obsEquiv_symm (scan_obsEquiv robot_pose.1 robot_pose.2.1 _ m))).1
  · intro q
    exact ((scan_obsEquiv robot_pose.1 robot_pose.2.1 _ m).2.2 q).symm

/-! ## Shared class-level ToF configuration lists (robot.py, lines 40-69
and 124-131)

_phi_tof, _t_tof, _v_face, _pos_tof and _far_tof are class attributes
initialized to empty lists; Robot.__init__ appends to them, so every
constructed robot extends the containers shared by all instances, and
get_tof_count (the length of _phi_tof) reflects the total across all
constructions. -/

def offset_tof : ℝ := 0.2

structure TofConfigState where
  phi_tof : List ℝ
  t_tof : List ℝ
  v_face : List (ℝ × ℝ)
  pos_tof : List (ℝ × ℝ)
  far_tof : List (ℝ × ℝ)

/-- The class-level initial values: all five shared lists are empty. -/
def initialTofState : TofConfigState := ⟨[], [], [], [], []⟩

/-- The ToF-list appends performed by one Robot.__init__ call with the
default configuration: 271 angular offsets i*angle_inc + angle_min and
271 copies of the mount offset are appended to _phi_tof and _t_tof; then
one (0, 0) placeholder per element of the CURRENT (already extended)
_phi_tof is appended to each of _v_face, _pos_tof and _far_tof. -/
def robot_init_tof (s : TofConfigState) : TofConfigState :=
  let phi := s.phi_tof ++
    (List.range laserbeams).map fun i : ℕ => (i : ℝ) * angle_inc + angle_min
  { phi_tof := phi
    t_tof := s.t_tof ++ List.replicate laserbeams offset_tof
    v_face := s.v_face ++ List.replicate phi.length (0, 0)
    pos_tof := s.pos_tof ++ List.replicate phi.length (0, 0)
    far_tof := s.far_tof ++ List.replicate phi.length (0, 0) }

/-- get_tof_count (robot.py lines 446-447): len(self._phi_tof), read from
the shared class-level list. -/
def get_tof_count (s : TofConfigState) : ℕ := s.phi_tof.length

/-- C10: the ToF geometry lists are class-level shared containers appended
to during construction: after constructing k Robot instances with the
default 271-beam configuration, get_tof_count — evaluated on the shared
state seen by every one of those instances — returns k * 271; each new
construction mutates the ToF configuration of all previously constructed
robots. -/
theorem tof_lists_shared_growth (k : ℕ) :
    get_tof_count (robot_init_tof^[k] initialTofState) = k * 271 := by
  have hlen : ∀ s : TofConfigState,
      (robot_init_tof s).phi_tof.length = s.phi_tof.length + 271 := by
    intro s
    simp only [robot_init_tof, List.length_append, List.length_map,
      List.length_range]
    rfl
  induction k with
  | zero => rfl
  | succ n ih =>
      rw [Function.iterate_succ_apply', get_tof_count, hlen]
      rw [get_tof_count] at ih
      rw [ih]
      ring

end

end MecanumSim
